import Mathlib

/-
Verification of the user-resource reconciler and application filter builder
of the Okta Terraform provider ( src/okta/resource_okta_user.go and
src/okta/app_filter.go ), as a shallow embedding.

Stateful Go code is embedded as pure functions that return the ordered list
of remote calls and local-state writes they perform (an event trace),
together with an Except result mirroring the diag.Diagnostics / error
return.  The remote client is an oracle structure: one response function
per remote operation, so theorems can quantify over every remote behaviour.
-/

namespace Okta

/-- Modelled from the spec: the status constant statusActive, declared
elsewhere in the repository (outside src); spec section 3 enumerates the
statuses. -/
def statusActive : String := "ACTIVE"

/-- Modelled from the spec: the status constant for STAGED users. -/
def userStatusStaged : String := "STAGED"

/-- Modelled from the spec: the status constant for DEPROVISIONED users. -/
def userStatusDeprovisioned : String := "DEPROVISIONED"

/-- Modelled from the spec: the status constant for SUSPENDED users. -/
def userStatusSuspended : String := "SUSPENDED"

/-- Modelled from the spec: the status constant for the transient
PROVISIONED state. -/
def userStatusProvisioned : String := "PROVISIONED"

/-- Modelled from the spec: the status constant for the transient
PASSWORD_EXPIRED state. -/
def userStatusPasswordExpired : String := "PASSWORD_EXPIRED"

/-- Modelled from the spec: the status constant for the transient
RECOVERY state. -/
def userStatusRecovery : String := "RECOVERY"

/-- A user profile payload: a mapping of named string attributes
(okta.UserProfile in the Go SDK). -/
abbrev Profile := List (String × String)

/-- One element of the password_hash set in the schema (a map with keys
algorithm, work_factor, salt, salt_order, value).  Absent optional fields
carry the Go zero value, as the type assertions with discarded ok flag do
in buildPasswordCredentialHash. -/
structure PasswordHashBlock where
  algorithm : String
  work_factor : Int
  salt : String
  salt_order : String
  value : String
deriving DecidableEq

/-- okta.PasswordCredentialHash from the Go SDK. -/
structure PasswordCredentialHash where
  Algorithm : String
  Value : String
  WorkFactor : Int
  Salt : String
  SaltOrder : String
deriving DecidableEq

/-- okta.PasswordCredentialHook from the Go SDK ( Type field renamed to
hookType because Type is reserved in Lean ). -/
structure PasswordCredentialHook where
  hookType : String
deriving DecidableEq

/-- okta.PasswordCredential from the Go SDK: zero values are the empty
string and nil pointers. -/
structure PasswordCredential where
  Value : String
  Hash : Option PasswordCredentialHash
  Hook : Option PasswordCredentialHook
deriving DecidableEq

/-- okta.RecoveryQuestionCredential from the Go SDK. -/
structure RecoveryQuestionCredential where
  Question : String
  Answer : String
deriving DecidableEq

/-- okta.UserCredentials from the Go SDK. -/
structure UserCredentials where
  Password : Option PasswordCredential
  RecoveryQuestion : Option RecoveryQuestionCredential
deriving DecidableEq

/-- okta.CreateUserRequest from the Go SDK (the fields the provider
populates). -/
structure CreateUserRequest where
  Profile : Profile
  Credentials : UserCredentials
deriving DecidableEq

/-- The okta.User value used as the body of an UpdateUser call: a profile
and/or a credentials payload, either of which may be nil. -/
structure UserUpdateBody where
  Profile : Option Profile
  Credentials : Option UserCredentials
deriving DecidableEq

/-- The part of a remote user record the provider reads: Id and Status. -/
structure RemoteUser where
  uid : String
  status : String
deriving DecidableEq

/-- A remote admin-role record: Id and Type ( rid / rtype here because
Type is reserved in Lean ). -/
structure ApiRole where
  rid : String
  rtype : String
deriving DecidableEq

/-- Result of a GetUser call: found user, a 404 not-found response, or a
transport/API failure. -/
inductive GetUserRes where
  | found (u : RemoteUser)
  | notFound
  | failure (msg : String)
deriving DecidableEq

/-- Result of a RemoveRoleFromUser call: success, a 404 response, or any
other failure. -/
inductive RemoveRoleRes where
  | ok
  | notFound
  | failure (msg : String)
deriving DecidableEq

/-- One observable step of a reconciliation: a remote API call, or a write
into the locally recorded state (SetId). -/
inductive Event where
  | apiCreateUser (req : CreateUserRequest) (activate : Option Bool)
  | apiGetUser (uid : String)
  | apiUpdateUser (uid : String) (body : UserUpdateBody)
  | apiChangePassword (uid oldPw newPw : String)
  | apiChangeRecovery (uid : String) (creds : UserCredentials)
  | apiExpirePassword (uid : String)
  | apiUpdateStatus (uid status : String)
  | apiListRoles (uid : String)
  | apiAssignRole (uid roleType : String)
  | apiRemoveRole (uid roleId : String)
  | apiAddToGroup (uid gid : String)
  | apiRemoveFromGroup (uid gid : String)
  | apiListGroups (uid : String)
  | apiDeactivateOrDelete (uid : String)
  | stateSetId (uid : String)
deriving DecidableEq

/-- The remote client as a response oracle: one response function per
operation of the Remote Client Adapter.  DeactivateOrDeleteUser is indexed
by the ordinal of the call, because the remote answers the first and the
second delete pass differently. -/
structure Client where
  createUser : CreateUserRequest → Option Bool → Except String RemoteUser
  getUser : String → GetUserRes
  updateUser : String → UserUpdateBody → Except String Unit
  changePassword : String → String → String → Except String Unit
  changeRecoveryQuestion : String → UserCredentials → Except String Unit
  expirePassword : String → Except String Unit
  updateStatus : String → String → Except String Unit
  listRoles : String → Except String (List ApiRole)
  assignRole : String → String → Except String Unit
  removeRole : String → String → RemoveRoleRes
  addToGroup : String → String → Except String Unit
  removeFromGroup : String → String → Except String Unit
  listGroups : String → Except String Unit
  deactivateOrDelete : Nat → String → Except String Unit

/-- The schema.ResourceData the reconciler reads: attribute lookup, the
old value recorded in prior state (first component of GetChange), the
per-attribute change flag (HasChange), boolean attributes, and the
set-valued attributes with their prior values. -/
structure ResourceData where
  id : String
  getStr : String → String
  getOldStr : String → String
  hasChange : String → Bool
  getBool : String → Bool
  adminRoles : List String
  adminRolesOld : List String
  groupMemberships : List String
  groupMembershipsOld : List String
  passwordHash : List PasswordHashBlock

/-- d.SetId. -/
def ResourceData.withId (d : ResourceData) (i : String) : ResourceData :=
  { d with id := i }

/-- d.Set for a string attribute. -/
def ResourceData.setStr (d : ResourceData) (k v : String) : ResourceData :=
  { d with getStr := fun k2 => if k2 = k then v else d.getStr k2 }

/-- d.GetOk for a string attribute: the value together with an existence
flag that is false exactly on the zero value (Terraform GetOk semantics). -/
def ResourceData.getOkStr (d : ResourceData) (k : String) : Option String :=
  if d.getStr k = "" then none else some (d.getStr k)

/-- Sequencing of trace-producing steps: on error the remaining steps do
not run; traces concatenate. -/
def tbind {α β : Type} (x : List Event × Except String α)
    (f : α → List Event × Except String β) : List Event × Except String β :=
  match x.2 with
  | Except.error e => (x.1, Except.error e)
  | Except.ok a => (x.1 ++ (f a).1, (f a).2)

/-- profileKeys from resource_okta_user.go: every profile property diffed
by hasProfileChange. -/
def profileKeys : List String :=
  ["city", "cost_center", "country_code", "custom_profile_attributes",
   "department", "display_name", "division", "email", "employee_number",
   "first_name", "honorific_prefix", "honorific_suffix", "last_name",
   "locale", "login", "manager", "manager_id", "middle_name",
   "mobile_phone", "nick_name", "organization", "postal_address",
   "preferred_language", "primary_phone", "profile_url", "second_email",
   "state", "street_address", "timezone", "title", "user_type", "zip_code",
   "password", "recovery_question", "recovery_answer"]

/-- hasProfileChange from resource_okta_user.go: whether any profile key
changed. -/
def hasProfileChange (d : ResourceData) : Bool :=
  profileKeys.any (fun k => d.hasChange k)

/-- Modelled from the spec: populateUserProfile (defined outside src)
builds the profile payload, the mapping of named string profile attributes
taken from the configuration. -/
def populateUserProfile (d : ResourceData) : Profile :=
  (profileKeys.filter (fun k =>
      k != "password" && k != "recovery_question" && k != "recovery_answer")).map
    (fun k => (k, d.getStr k))

/-- buildPasswordCredentialHash from resource_okta_user.go: nil or empty
password_hash set gives nil; otherwise the first block is converted, with
Go zero values for absent optional entries. -/
def buildPasswordCredentialHash : List PasswordHashBlock → Option PasswordCredentialHash
  | [] => none
  | hash :: _ =>
    some { Algorithm := hash.algorithm, Value := hash.value,
           WorkFactor := hash.work_factor, Salt := hash.salt,
           SaltOrder := hash.salt_order }

/-- The ConflictsWith declarations of the credential fields in the
resourceUser schema: only password_inline_hook declares conflicts, with
password and with password_hash. -/
def userSchemaConflictsWith (field : String) : List String :=
  if field = "password_inline_hook" then ["password", "password_hash"] else []

/-- The three credential fields of the schema. -/
def credentialFields : List String :=
  ["password", "password_hash", "password_inline_hook"]

/-- Whether a credential field is supplied in the configuration (set to a
non-zero value). -/
def credentialFieldSet (d : ResourceData) : String → Bool :=
  fun k => if k = "password_hash" then !d.passwordHash.isEmpty
           else d.getStr k != ""

/-- Modelled from the spec: the mutual-exclusion validation the framework
performs from the ConflictsWith declarations — a configuration passes
exactly when no declared conflict pair is supplied on both sides. -/
def userConflictValidationPasses (d : ResourceData) : Bool :=
  credentialFields.all (fun k =>
    (userSchemaConflictsWith k).all (fun k2 =>
      !(credentialFieldSet d k && credentialFieldSet d k2)))

/-- The credential payload built by resourceUserCreate: a password
credential with the plaintext value and the converted hash, replaced
entirely by a hook-only credential when password_inline_hook is set;
plus a recovery question credential when the question is non-empty. -/
def buildCreateCredentials (d : ResourceData) : UserCredentials :=
  let basePwd : PasswordCredential :=
    { Value := d.getStr "password",
      Hash := buildPasswordCredentialHash d.passwordHash,
      Hook := none }
  let pih := d.getStr "password_inline_hook"
  let pwd : PasswordCredential :=
    if pih ≠ "" then { Value := "", Hash := none, Hook := some { hookType := pih } }
    else basePwd
  let rq := d.getStr "recovery_question"
  { Password := some pwd,
    RecoveryQuestion :=
      if rq ≠ "" then some { Question := rq, Answer := d.getStr "recovery_answer" }
      else none }

/-- The CreateUserRequest body built by resourceUserCreate. -/
def buildCreateUserRequest (d : ResourceData) : CreateUserRequest :=
  { Profile := populateUserProfile d, Credentials := buildCreateCredentials d }

/-- The query parameter of the create call: WithActivate(false) exactly
when the desired status is STAGED, the default (no activate parameter)
otherwise. -/
def createActivateParam (d : ResourceData) : Option Bool :=
  if d.getStr "status" = userStatusStaged then some false else none

/-- Modelled from the spec: assignAdminRolesToUser (defined outside src)
applies the role assignments one call per role, stopping at the first
failure. -/
def assignAdminRolesToUser (client : Client) (uid : String) :
    List String → List Event × Except String Unit
  | [] => ([], Except.ok ())
  | r :: rest =>
    match client.assignRole uid r with
    | Except.error e => ([Event.apiAssignRole uid r], Except.error e)
    | Except.ok _ =>
      let rec2 := assignAdminRolesToUser client uid rest
      (Event.apiAssignRole uid r :: rec2.1, rec2.2)

/-- Modelled from the spec: assignGroupsToUser / addUserToGroups (defined
outside src) add the user to each group, one call per group, stopping at
the first failure. -/
def addUserToGroups (client : Client) (uid : String) :
    List String → List Event × Except String Unit
  | [] => ([], Except.ok ())
  | g :: rest =>
    match client.addToGroup uid g with
    | Except.error e => ([Event.apiAddToGroup uid g], Except.error e)
    | Except.ok _ =>
      let rec2 := addUserToGroups client uid rest
      (Event.apiAddToGroup uid g :: rec2.1, rec2.2)

/-- Modelled from the spec: removeUserFromGroups (defined outside src)
removes the user from each group, one call per group, stopping at the
first failure. -/
def removeUserFromGroups (client : Client) (uid : String) :
    List String → List Event × Except String Unit
  | [] => ([], Except.ok ())
  | g :: rest =>
    match client.removeFromGroup uid g with
    | Except.error e => ([Event.apiRemoveFromGroup uid g], Except.error e)
    | Except.ok _ =>
      let rec2 := removeUserFromGroups client uid rest
      (Event.apiRemoveFromGroup uid g :: rec2.1, rec2.2)

/-- Modelled from the spec: updateUserStatus (defined outside src) applies
one status transition through the remote client. -/
def updateUserStatusStep (client : Client) (uid status : String) :
    List Event × Except String Unit :=
  match client.updateStatus uid status with
  | Except.error e => ([Event.apiUpdateStatus uid status], Except.error e)
  | Except.ok _ => ([Event.apiUpdateStatus uid status], Except.ok ())

/-- resourceUserRead from resource_okta_user.go: GetUser with a 404
absorbed into clearing the recorded id; on success the raw status is
recorded, admin roles are synced unless skip_roles is set (a role-list
read), and group memberships are synced when the configuration outlines
them (a group-list read).  flattenUser / setNonPrimitives copy the remote
profile into local state and issue no remote call; the profile copy is not
tracked here. -/
def resourceUserRead (client : Client) (d : ResourceData) :
    List Event × Except String ResourceData :=
  match client.getUser d.id with
  | GetUserRes.failure e =>
    ([Event.apiGetUser d.id], Except.error ("failed to get user: " ++ e))
  | GetUserRes.notFound =>
    ([Event.apiGetUser d.id], Except.ok (d.withId ""))
  | GetUserRes.found u =>
    let d1 := d.setStr "raw_status" u.status
    tbind ([Event.apiGetUser d.id], Except.ok ()) (fun _ =>
    tbind (if d1.getBool "skip_roles" = false then
             match client.listRoles d1.id with
             | Except.error e =>
               ([Event.apiListRoles d1.id],
                Except.error ("failed to set users admin roles: " ++ e))
             | Except.ok _ =>
               ([Event.apiListRoles d1.id], Except.ok ())
           else ([], Except.ok ())) (fun _ =>
    if d1.groupMemberships ≠ [] then
      match client.listGroups d1.id with
      | Except.error e =>
        ([Event.apiListGroups d1.id],
         Except.error ("failed to set users groups: " ++ e))
      | Except.ok _ => ([Event.apiListGroups d1.id], Except.ok d1)
    else ([], Except.ok d1)))

/-- resourceUserCreate from resource_okta_user.go: build profile and
credential payloads, issue the create call (activate=false exactly when
the desired status is STAGED), record the assigned id immediately, then in
order apply admin roles (only when configured), group memberships (only
when configured), a status transition when the desired status is SUSPENDED
or DEPROVISIONED, and optionally expire the password; finish with a read. -/
def resourceUserCreate (client : Client) (d : ResourceData) :
    List Event × Except String ResourceData :=
  let userBody := buildCreateUserRequest d
  let activate := createActivateParam d
  match client.createUser userBody activate with
  | Except.error e =>
    ([Event.apiCreateUser userBody activate],
     Except.error ("failed to create user: " ++ e))
  | Except.ok user =>
    let d1 := d.withId user.uid
    tbind ([Event.apiCreateUser userBody activate, Event.stateSetId user.uid],
           Except.ok ()) (fun _ =>
    tbind (if d1.adminRoles ≠ [] then
             assignAdminRolesToUser client user.uid d1.adminRoles
           else ([], Except.ok ())) (fun _ =>
    tbind (if d1.groupMemberships ≠ [] then
             addUserToGroups client user.uid d1.groupMemberships
           else ([], Except.ok ())) (fun _ =>
    tbind (if d1.getStr "status" = userStatusSuspended ∨
              d1.getStr "status" = userStatusDeprovisioned then
             match client.updateStatus user.uid (d1.getStr "status") with
             | Except.error e =>
               ([Event.apiUpdateStatus user.uid (d1.getStr "status")],
                Except.error ("failed to update user status: " ++ e))
             | Except.ok _ =>
               ([Event.apiUpdateStatus user.uid (d1.getStr "status")],
                Except.ok ())
           else ([], Except.ok ())) (fun _ =>
    tbind (if d1.getBool "expire_password_on_create" = true then
             match client.expirePassword user.uid with
             | Except.error e =>
               ([Event.apiExpirePassword user.uid],
                Except.error ("failed to expire users password: " ++ e))
             | Except.ok _ =>
               ([Event.apiExpirePassword user.uid], Except.ok ())
           else ([], Except.ok ())) (fun _ =>
    resourceUserRead client d1)))))

/-- The error returned when an update tries to move a user to STAGED. -/
def stagedUpdateError : String :=
  "Okta will not allow a user to be updated to STAGED. Can set to STAGED on user creation only"

/-- The error returned when a password change is attempted on a
PROVISIONED user. -/
def provisionedPasswordError : String :=
  "can not change password for provisioned user, the activation workflow should be finished first. Please, check this diagram https://developer.okta.com/docs/reference/api/users/#user-status for more clarity."

/-- The error returned when a profile change accompanies DEPROVISIONED
status. -/
def deprovisionedUpdateError : String :=
  "Only the status of a DEPROVISIONED user can be updated, we detected other change"

/-- Step 2 of resourceUserUpdate: when the password changed, fetch the
current remote user and reject the update when its status is PROVISIONED. -/
def updProvisionedCheck (client : Client) (d : ResourceData)
    (passwordChange : Bool) : List Event × Except String Unit :=
  if passwordChange = true then
    match client.getUser d.id with
    | GetUserRes.found u =>
      ([Event.apiGetUser d.id],
       if u.status = "PROVISIONED" then Except.error provisionedPasswordError
       else Except.ok ())
    | GetUserRes.notFound =>
      ([Event.apiGetUser d.id], Except.error "failed to get user: not found")
    | GetUserRes.failure e =>
      ([Event.apiGetUser d.id], Except.error ("failed to get user: " ++ e))
  else ([], Except.ok ())

/-- Step 3 of resourceUserUpdate: apply the status transition first and
record the new status into local state. -/
def updStatusStep (client : Client) (d : ResourceData) (status : String)
    (statusChange : Bool) : List Event × Except String ResourceData :=
  if statusChange = true then
    match client.updateStatus d.id status with
    | Except.error e =>
      ([Event.apiUpdateStatus d.id status],
       Except.error ("failed to update user status: " ++ e))
    | Except.ok _ =>
      ([Event.apiUpdateStatus d.id status], Except.ok (d.setStr "status" status))
  else ([], Except.ok d)

/-- Step 4 of resourceUserUpdate: reject any profile change on a
DEPROVISIONED user. -/
def updDeprovisionedCheck (status : String) (userChange : Bool) :
    List Event × Except String Unit :=
  if status = userStatusDeprovisioned ∧ userChange = true then
    ([], Except.error deprovisionedUpdateError)
  else ([], Except.ok ())

/-- Step 5 of resourceUserUpdate: when a profile key, the password hash or
the password hook changed, rebuild the full profile and submit it through
UpdateUser, with the hash credential when the hash changed and the hook
credential when the hook changed and is non-empty. -/
def updProfileStep (client : Client) (d : ResourceData)
    (userChange passwordHashChange passwordHookChange : Bool) :
    List Event × Except String Unit :=
  if userChange = true ∨ passwordHashChange = true ∨ passwordHookChange = true then
    let profile := populateUserProfile d
    let base : UserUpdateBody := { Profile := some profile, Credentials := none }
    let hashCreds : UserCredentials :=
      { Password := some
          { Value := "", Hash := buildPasswordCredentialHash d.passwordHash,
            Hook := none },
        RecoveryQuestion := none }
    let body1 :=
      if passwordHashChange = true then { base with Credentials := some hashCreds }
      else base
    let pih := d.getStr "password_inline_hook"
    let hookCreds : UserCredentials :=
      { Password := some
          { Value := "", Hash := none, Hook := some { hookType := pih } },
        RecoveryQuestion := none }
    let body2 :=
      if passwordHookChange = true ∧ pih ≠ "" then
        { body1 with Credentials := some hookCreds }
      else body1
    match client.updateUser d.id body2 with
    | Except.error e =>
      ([Event.apiUpdateUser d.id body2],
       Except.error ("failed to update user: " ++ e))
    | Except.ok _ => ([Event.apiUpdateUser d.id body2], Except.ok ())
  else ([], Except.ok ())

/-- Set difference as schema.Set.Difference computes it: the elements of
the first collection that are not in the second. -/
def listDiff (xs ys : List String) : List String :=
  xs.filter (fun x => !ys.contains x)

/-- Modelled from the spec: suppressErrorOn404 (defined outside src)
treats a 404 response as success and passes any other failure through. -/
def suppressRemoveErrorOn404 : RemoveRoleRes → Except String Unit
  | RemoveRoleRes.failure e => Except.error e
  | _ => Except.ok ()

/-- The removal loop of the role-update block: walk the freshly fetched
remote role list and remove every role whose type is in the removal delta,
absorbing 404 responses as success. -/
def removeRolesLoop (client : Client) (uid : String) (rolesToRemove : List String) :
    List ApiRole → List Event × Except String Unit
  | [] => ([], Except.ok ())
  | role :: rest =>
    if rolesToRemove.contains role.rtype then
      match suppressRemoveErrorOn404 (client.removeRole uid role.rid) with
      | Except.error e =>
        ([Event.apiRemoveRole uid role.rid],
         Except.error ("failed to remove users role: " ++ e))
      | Except.ok _ =>
        let rec2 := removeRolesLoop client uid rolesToRemove rest
        (Event.apiRemoveRole uid role.rid :: rec2.1, rec2.2)
    else removeRolesLoop client uid rolesToRemove rest

/-- Step 6 of resourceUserUpdate: when role membership changed, compute
the additions and removals as set differences, fetch the current remote
role list, run the removal loop, then assign the added roles. -/
def updRolesStep (client : Client) (d : ResourceData) (roleChange : Bool) :
    List Event × Except String Unit :=
  if roleChange = true then
    let rolesToAdd := listDiff d.adminRoles d.adminRolesOld
    let rolesToRemove := listDiff d.adminRolesOld d.adminRoles
    match client.listRoles d.id with
    | Except.error e =>
      ([Event.apiListRoles d.id],
       Except.error ("failed to list users roles: " ++ e))
    | Except.ok roles =>
      tbind (Event.apiListRoles d.id :: (removeRolesLoop client d.id rolesToRemove roles).1,
             (removeRolesLoop client d.id rolesToRemove roles).2) (fun _ =>
        assignAdminRolesToUser client d.id rolesToAdd)
  else ([], Except.ok ())

/-- Step 7 of resourceUserUpdate: when group membership changed, add the
new groups then remove the dropped ones (the order the source uses). -/
def updGroupsStep (client : Client) (d : ResourceData) (groupChange : Bool) :
    List Event × Except String Unit :=
  if groupChange = true then
    let groupsToAdd := listDiff d.groupMemberships d.groupMembershipsOld
    let groupsToRemove := listDiff d.groupMembershipsOld d.groupMemberships
    tbind (addUserToGroups client d.id groupsToAdd) (fun _ =>
      removeUserFromGroups client d.id groupsToRemove)
  else ([], Except.ok ())

/-- Step 8 of resourceUserUpdate: when the password changed, use the
dedicated ChangePassword operation with old and new values when an
explicit old_password is supplied, and a credentials-only UpdateUser
overwrite otherwise. -/
def updPasswordStep (client : Client) (d : ResourceData) (passwordChange : Bool) :
    List Event × Except String Unit :=
  if passwordChange = true then
    let newPassword := d.getStr "password"
    match d.getOkStr "old_password" with
    | some old =>
      match client.changePassword d.id old newPassword with
      | Except.error e =>
        ([Event.apiChangePassword d.id old newPassword],
         Except.error ("failed to update users password: " ++ e))
      | Except.ok _ =>
        ([Event.apiChangePassword d.id old newPassword], Except.ok ())
    | none =>
      let body : UserUpdateBody :=
        { Profile := none,
          Credentials := some
            { Password := some { Value := newPassword, Hash := none, Hook := none },
              RecoveryQuestion := none } }
      match client.updateUser d.id body with
      | Except.error e =>
        ([Event.apiUpdateUser d.id body],
         Except.error ("failed to set users password: " ++ e))
      | Except.ok _ => ([Event.apiUpdateUser d.id body], Except.ok ())
  else ([], Except.ok ())

/-- Step 9 of resourceUserUpdate: when the recovery question or answer
changed, submit both together alongside the current password. -/
def updRecoveryStep (client : Client) (d : ResourceData)
    (recoveryQuestionChange recoveryAnswerChange : Bool) :
    List Event × Except String Unit :=
  if recoveryQuestionChange = true ∨ recoveryAnswerChange = true then
    let nuc : UserCredentials :=
      { Password := some { Value := d.getStr "password", Hash := none, Hook := none },
        RecoveryQuestion := some
          { Question := d.getStr "recovery_question",
            Answer := d.getStr "recovery_answer" } }
    match client.changeRecoveryQuestion d.id nuc with
    | Except.error e =>
      ([Event.apiChangeRecovery d.id nuc],
       Except.error ("failed to change users password recovery question: " ++ e))
    | Except.ok _ => ([Event.apiChangeRecovery d.id nuc], Except.ok ())
  else ([], Except.ok ())

/-- resourceUserUpdate from resource_okta_user.go: reject a change to
STAGED, then run the ordered steps — provisioned-password check, status
transition, deprovisioned guard, profile submit, role delta, group delta,
password change, recovery question — and finish with a read. -/
def resourceUserUpdate (client : Client) (d : ResourceData) :
    List Event × Except String ResourceData :=
  let status := d.getStr "status"
  let statusChange := d.hasChange "status"
  if status = userStatusStaged ∧ statusChange = true then
    ([], Except.error stagedUpdateError)
  else
    let roleChange := d.hasChange "admin_roles"
    let groupChange := d.hasChange "group_memberships"
    let userChange := hasProfileChange d
    let passwordChange := d.hasChange "password"
    let passwordHashChange := d.hasChange "password_hash"
    let passwordHookChange := d.hasChange "password_inline_hook"
    let recoveryQuestionChange := d.hasChange "recovery_question"
    let recoveryAnswerChange := d.hasChange "recovery_answer"
    tbind (updProvisionedCheck client d passwordChange) (fun _ =>
    tbind (updStatusStep client d status statusChange) (fun d1 =>
    tbind (updDeprovisionedCheck status userChange) (fun _ =>
    tbind (updProfileStep client d1 userChange passwordHashChange passwordHookChange) (fun _ =>
    tbind (updRolesStep client d1 roleChange) (fun _ =>
    tbind (updGroupsStep client d1 groupChange) (fun _ =>
    tbind (updPasswordStep client d1 passwordChange) (fun _ =>
    tbind (updRecoveryStep client d1 recoveryQuestionChange recoveryAnswerChange) (fun _ =>
    resourceUserRead client d1))))))))

/-- The inner loop of ensureUserDelete: issue the deactivate-or-delete
call the given number of times, aborting on the first failure; the first
argument of the oracle is the ordinal of the call. -/
def deleteLoop (client : Client) (uid : String) :
    Nat → Nat → List Event × Except String Unit
  | _, 0 => ([], Except.ok ())
  | i, n + 1 =>
    match client.deactivateOrDelete i uid with
    | Except.error e =>
      ([Event.apiDeactivateOrDelete uid],
       Except.error ("failed to deprovision or delete user from Okta: " ++ e))
    | Except.ok _ =>
      let rec2 := deleteLoop client uid (i + 1) n
      (Event.apiDeactivateOrDelete uid :: rec2.1, rec2.2)

/-- ensureUserDelete from resource_okta_user.go: one pass when the
recorded status is already DEPROVISIONED, two passes otherwise. -/
def ensureUserDelete (client : Client) (uid status : String) :
    List Event × Except String Unit :=
  let passes := if status = userStatusDeprovisioned then 1 else 2
  deleteLoop client uid 0 passes

/-- resourceUserDelete from resource_okta_user.go: delete with the
recorded status. -/
def resourceUserDelete (client : Client) (d : ResourceData) :
    List Event × Except String Unit :=
  ensureUserDelete client d.id (d.getStr "status")

/-- mapStatus from resource_okta_user.go: PASSWORD_EXPIRED and RECOVERY
are effectively ACTIVE; anything else is returned unchanged. -/
def mapStatus (currentStatus : String) : String :=
  if currentStatus = userStatusPasswordExpired ∨ currentStatus = userStatusRecovery then
    statusActive
  else currentStatus

/-- The DiffSuppressFunc of the status schema attribute: a change from
PROVISIONED to ACTIVE or from PASSWORD_EXPIRED to ACTIVE is suppressed. -/
def statusDiffSuppress (old new : String) : Bool :=
  (old == userStatusProvisioned && new == statusActive) ||
  (old == userStatusPasswordExpired && new == statusActive)

/-- appFilters from app_filter.go ( LabelPrefix renamed LabelPfx ). -/
structure AppFilters where
  Status : String
  ID : String
  Label : String
  LabelPfx : String
deriving DecidableEq

/-- appFilters.getQ from app_filter.go: the exact label when non-empty,
the label prefix otherwise. -/
def AppFilters.getQ (f : AppFilters) : String :=
  if f.Label ≠ "" then f.Label else f.LabelPfx

/-- The status-equality clause added by active_only. -/
def activeStatusClause : String := "status eq \"" ++ statusActive ++ "\""

/-- The validation error of getAppFilters (the source message quotes the
field names). -/
def appFilterEmptyError : String :=
  "you must provide either a label_prefix, id, or label for application search"

/-- getAppFilters from app_filter.go: read id, label, label_prefix and
active_only; error when all three identifying fields are empty; otherwise
return the filter, with the status clause exactly when active_only. -/
def getAppFilters (d : ResourceData) : Except String AppFilters :=
  let id := d.getStr "id"
  let label := d.getStr "label"
  let labelPfx := d.getStr "label_prefix"
  let status := if d.getBool "active_only" = true then activeStatusClause else ""
  if id = "" ∧ label = "" ∧ labelPfx = "" then Except.error appFilterEmptyError
  else Except.ok { Status := status, ID := id, Label := label, LabelPfx := labelPfx }

/-- The steps of resourceUserUpdate that follow the role step: group
delta, password change, recovery question and the final read, named as one
composite for the role-ordering proofs.  Definitionally equal to the
corresponding tail of resourceUserUpdate. -/
def updTailAfterProfile (client : Client) (d1 : ResourceData)
    (gc pc qc ac : Bool) : List Event × Except String ResourceData :=
  tbind (updGroupsStep client d1 gc) (fun _ =>
  tbind (updPasswordStep client d1 pc) (fun _ =>
  tbind (updRecoveryStep client d1 qc ac) (fun _ =>
  resourceUserRead client d1)))

/-- The suffix of resourceUserUpdate from the role step on; definitionally
equal to the corresponding tail of resourceUserUpdate. -/
def updRolesSuffix (client : Client) (d1 : ResourceData)
    (rc gc pc qc ac : Bool) : List Event × Except String ResourceData :=
  tbind (updRolesStep client d1 rc) (fun _ =>
    updTailAfterProfile client d1 gc pc qc ac)

/-- Whether an event is a create-user call. -/
def isCreateEv : Event → Bool
  | Event.apiCreateUser _ _ => true
  | _ => false

/-- Whether an event is a profile-overwrite (UpdateUser) call. -/
def isUpdateUserEv : Event → Bool
  | Event.apiUpdateUser _ _ => true
  | _ => false

/-- Whether an event is a change-password call. -/
def isChangePasswordEv : Event → Bool
  | Event.apiChangePassword _ _ _ => true
  | _ => false

/-- Whether an event is a role-assignment call. -/
def isAssignRoleEv : Event → Bool
  | Event.apiAssignRole _ _ => true
  | _ => false

/-- Whether an event is a role-removal call. -/
def isRemoveRoleEv : Event → Bool
  | Event.apiRemoveRole _ _ => true
  | _ => false

/-- Whether an event is a deactivate-or-delete call. -/
def isDeactivateEv : Event → Bool
  | Event.apiDeactivateOrDelete _ => true
  | _ => false

/-- Whether an event is one of the mutating follow-up calls of the create
path: role assignment or removal, group addition or removal, status
transition, or password expiry. -/
def isFollowUpEv : Event → Bool
  | Event.apiAssignRole _ _ => true
  | Event.apiRemoveRole _ _ => true
  | Event.apiAddToGroup _ _ => true
  | Event.apiRemoveFromGroup _ _ => true
  | Event.apiUpdateStatus _ _ => true
  | Event.apiExpirePassword _ => true
  | _ => false

/-- The number of events of a trace matching a classifier. -/
def countEv (p : Event → Bool) (tr : List Event) : Nat :=
  (tr.filter p).length

/-- A resource-data value with every attribute at its zero value; concrete
scenarios below override individual fields. -/
def emptyRD : ResourceData :=
  { id := "u1", getStr := fun _ => "", getOldStr := fun _ => "",
    hasChange := fun _ => false, getBool := fun _ => false,
    adminRoles := [], adminRolesOld := [], groupMemberships := [],
    groupMembershipsOld := [], passwordHash := [] }

/-- A remote client whose every operation succeeds. -/
def okClient : Client :=
  { createUser := fun _ _ => Except.ok { uid := "u1", status := "STAGED" },
    getUser := fun _ => GetUserRes.found { uid := "u1", status := "ACTIVE" },
    updateUser := fun _ _ => Except.ok (),
    changePassword := fun _ _ _ => Except.ok (),
    changeRecoveryQuestion := fun _ _ => Except.ok (),
    expirePassword := fun _ => Except.ok (),
    updateStatus := fun _ _ => Except.ok (),
    listRoles := fun _ => Except.ok [],
    assignRole := fun _ _ => Except.ok (),
    removeRole := fun _ _ => RemoveRoleRes.ok,
    addToGroup := fun _ _ => Except.ok (),
    removeFromGroup := fun _ _ => Except.ok (),
    listGroups := fun _ => Except.ok (),
    deactivateOrDelete := fun _ _ => Except.ok () }

/-- Scenario for C1: only the password changed, an old_password is
supplied. -/
def dC1 : ResourceData :=
  { emptyRD with
    getStr := fun k =>
      if k = "status" then "ACTIVE"
      else if k = "old_password" then "oldpw"
      else if k = "password" then "newpw" else "",
    hasChange := fun k => k == "password" }

/-- Scenario for C2: both a plaintext password and a password hash are
supplied, no inline hook. -/
def dC2 : ResourceData :=
  { emptyRD with
    getStr := fun k => if k = "password" then "hunter2" else "",
    passwordHash := [{ algorithm := "SHA-256", work_factor := 0, salt := "",
                       salt_order := "", value := "deadbeef" }] }

/-- Scenario for C3: a user recorded as DEPROVISIONED. -/
def dC3dep : ResourceData :=
  { emptyRD with getStr := fun k => if k = "status" then "DEPROVISIONED" else "" }

/-- Scenario for C3: a user recorded as ACTIVE. -/
def dC3act : ResourceData :=
  { emptyRD with getStr := fun k => if k = "status" then "ACTIVE" else "" }

/-- Scenario for C6: create with desired status STAGED and no follow-up
configuration. -/
def dC6 : ResourceData :=
  { emptyRD with getStr := fun k => if k = "status" then "STAGED" else "" }

/-- Scenario for C7: desired status STAGED and the status flagged as
changed. -/
def dC7 : ResourceData :=
  { emptyRD with
    getStr := fun k => if k = "status" then "STAGED" else "",
    hasChange := fun k => k == "status" }

/-- Scenario for C8: label and label_prefix both supplied, active_only
set. -/
def dC8 : ResourceData :=
  { emptyRD with
    getStr := fun k =>
      if k = "label" then "L" else if k = "label_prefix" then "P" else "",
    getBool := fun k => k == "active_only" }

/-- The filter value getAppFilters returns for dC8. -/
def fC8 : AppFilters :=
  { Status := activeStatusClause, ID := "", Label := "L", LabelPfx := "P" }

/-- Scenario for C9: role membership changed, nothing else did. -/
def dC9 : ResourceData :=
  { emptyRD with
    hasChange := fun k => k == "admin_roles",
    adminRoles := ["APP_ADMIN"], adminRolesOld := ["SUPER_ADMIN"] }

/-- Client for C9: the freshly fetched role list holds one role whose
type is in the removal delta, and the removal call answers 404. -/
def clientC9 : Client :=
  { okClient with
    listRoles := fun _ => Except.ok [{ rid := "rid1", rtype := "SUPER_ADMIN" }],
    removeRole := fun _ _ => RemoveRoleRes.notFound }

/-- Scenario for C10: an inline hook together with a (discarded) password
and password hash. -/
def dC10 : ResourceData :=
  { emptyRD with
    getStr := fun k =>
      if k = "password_inline_hook" then "default"
      else if k = "password" then "pw" else "",
    passwordHash := [{ algorithm := "SHA-512", work_factor := 0, salt := "",
                       salt_order := "", value := "abc" }] }

theorem tbind_ok {α β : Type} (tr : List Event) (a : α)
    (f : α → List Event × Except String β) :
    tbind (tr, Except.ok a) f = (tr ++ (f a).1, (f a).2) := rfl

theorem tbind_error {α β : Type} (tr : List Event) (e : String)
    (f : α → List Event × Except String β) :
    tbind (tr, Except.error e) f = (tr, Except.error e) := rfl

/-- C4: mapStatus sends PASSWORD_EXPIRED and RECOVERY to ACTIVE, and is
the identity on every other status string. -/
theorem C4_mapStatus_normalization :
    mapStatus userStatusPasswordExpired = statusActive ∧
    mapStatus userStatusRecovery = statusActive ∧
    ∀ X : String, X ≠ userStatusPasswordExpired → X ≠ userStatusRecovery →
      mapStatus X = X := by
  refine ⟨by decide, by decide, ?_⟩
  intro X h1 h2
  simp [mapStatus, h1, h2]

/-- Witness for C4 at the concrete status STAGED. -/
theorem C4_mapStatus_normalization_witness : mapStatus "STAGED" = "STAGED" :=
  C4_mapStatus_normalization.2.2 "STAGED" (by decide) (by decide)

/-- C5 counterexample: mapStatus leaves PROVISIONED unchanged instead of
sending it to ACTIVE. -/
theorem C5_counterexample :
    mapStatus userStatusProvisioned = userStatusProvisioned ∧
    mapStatus userStatusProvisioned ≠ statusActive := by decide

/-- C5 (amended): PASSWORD_EXPIRED and RECOVERY normalize to ACTIVE
through mapStatus; PROVISIONED is left unchanged by mapStatus, and its
identification with ACTIVE for comparison purposes happens in the diff
suppression of the status attribute instead. -/
theorem C5_amended_normalization :
    mapStatus userStatusPasswordExpired = statusActive ∧
    mapStatus userStatusRecovery = statusActive ∧
    mapStatus userStatusProvisioned = userStatusProvisioned ∧
    statusDiffSuppress userStatusProvisioned statusActive = true := by decide

/-- C7: an update whose desired status is STAGED while the status is
flagged as changed is rejected with the descriptive STAGED error, the
event trace is empty (no remote call is issued), and no state write
happens. -/
theorem C7_update_to_staged_rejected (client : Client) (d : ResourceData)
    (h1 : d.getStr "status" = userStatusStaged)
    (h2 : d.hasChange "status" = true) :
    resourceUserUpdate client d = ([], Except.error stagedUpdateError) := by
  simp [resourceUserUpdate, h1, h2]

/-- Witness for C7 at a concrete configuration. -/
theorem C7_update_to_staged_rejected_witness :
    resourceUserUpdate okClient dC7 = ([], Except.error stagedUpdateError) :=
  C7_update_to_staged_rejected okClient dC7 (by decide) (by decide)

/-- C3: deleting a user recorded as DEPROVISIONED issues exactly one
deactivate-or-delete call; under any other recorded status two calls are
issued when the first succeeds, and only the first is issued when it
fails. -/
theorem C3_delete_call_count (client : Client) (d : ResourceData) :
    (d.getStr "status" = userStatusDeprovisioned →
      countEv isDeactivateEv (resourceUserDelete client d).1 = 1) ∧
    (d.getStr "status" ≠ userStatusDeprovisioned →
      (client.deactivateOrDelete 0 d.id = Except.ok () →
        countEv isDeactivateEv (resourceUserDelete client d).1 = 2) ∧
      (∀ e, client.deactivateOrDelete 0 d.id = Except.error e →
        countEv isDeactivateEv (resourceUserDelete client d).1 = 1)) := by
  constructor
  · intro h
    cases h0 : client.deactivateOrDelete 0 d.id <;>
      simp [resourceUserDelete, ensureUserDelete, h, deleteLoop, h0, countEv,
        isDeactivateEv]
  · intro h
    constructor
    · intro h0
      cases h1 : client.deactivateOrDelete 1 d.id <;>
        simp [resourceUserDelete, ensureUserDelete, h, deleteLoop, h0, h1,
          countEv, isDeactivateEv]
    · intro e h0
      simp [resourceUserDelete, ensureUserDelete, h, deleteLoop, h0, countEv,
        isDeactivateEv]

/-- Witness for C3: one call on a DEPROVISIONED record, two on an ACTIVE
one. -/
theorem C3_delete_call_count_witness :
    countEv isDeactivateEv (resourceUserDelete okClient dC3dep).1 = 1 ∧
    countEv isDeactivateEv (resourceUserDelete okClient dC3act).1 = 2 :=
  ⟨(C3_delete_call_count okClient dC3dep).1 (by decide),
   ((C3_delete_call_count okClient dC3act).2 (by decide)).1 rfl⟩

/-- C2 (amended): the mutual-exclusion validation of the schema rejects
supplying password_inline_hook together with password and together with
password_hash, but a configuration without the hook always passes it — in
particular password and password_hash may be supplied together. -/
theorem C2_amended_credential_exclusion (d : ResourceData) :
    (credentialFieldSet d "password_inline_hook" = true →
      credentialFieldSet d "password" = true →
      userConflictValidationPasses d = false) ∧
    (credentialFieldSet d "password_inline_hook" = true →
      credentialFieldSet d "password_hash" = true →
      userConflictValidationPasses d = false) ∧
    (credentialFieldSet d "password_inline_hook" = false →
      userConflictValidationPasses d = true) := by
  refine ⟨?_, ?_, ?_⟩ <;> intro h1 <;>
    simp [userConflictValidationPasses, credentialFields,
      userSchemaConflictsWith, h1]
  · intro h2
    simp [h2]
  · intro h2
    simp [h2]

/-- Witness for C2 (amended) at a configuration supplying the hook and a
password, which the validation rejects. -/
theorem C2_amended_credential_exclusion_witness :
    userConflictValidationPasses dC10 = false :=
  (C2_amended_credential_exclusion dC10).1 (by decide) (by decide)

/-- C2 counterexample: password and password_hash supplied together pass
the schema validation, and the create call is issued carrying both in
its credential payload — no validation failure precedes the remote
call. -/
theorem C2_counterexample :
    credentialFieldSet dC2 "password" = true ∧
    credentialFieldSet dC2 "password_hash" = true ∧
    credentialFieldSet dC2 "password_inline_hook" = false ∧
    userConflictValidationPasses dC2 = true ∧
    (resourceUserCreate okClient dC2).1.take 1 =
      [Event.apiCreateUser (buildCreateUserRequest dC2) none] ∧
    (buildCreateCredentials dC2).Password =
      some { Value := "hunter2",
             Hash := some { Algorithm := "SHA-256", Value := "deadbeef",
                            WorkFactor := 0, Salt := "", SaltOrder := "" },
             Hook := none } := by
  refine ⟨by decide, by decide, by decide, by decide, ?_, by decide⟩
  decide

/-- C10: when password_inline_hook is non-empty, the password credential
of the create request carries only the hook reference — the plaintext
value is empty and the hash is absent — and the create call issued first
carries exactly that request. -/
theorem C10_hook_only_credentials (client : Client) (d : ResourceData)
    (h : d.getStr "password_inline_hook" ≠ "") :
    (buildCreateCredentials d).Password =
      some { Value := "", Hash := none,
             Hook := some { hookType := d.getStr "password_inline_hook" } } ∧
    (resourceUserCreate client d).1.take 1 =
      [Event.apiCreateUser (buildCreateUserRequest d) (createActivateParam d)] := by
  constructor
  · simp [buildCreateCredentials, h]
  · cases hc : client.createUser (buildCreateUserRequest d) (createActivateParam d) <;>
      simp [resourceUserCreate, hc, tbind]

/-- Witness for C10: hook set while a password and a hash are also
supplied. -/
theorem C10_hook_only_credentials_witness :
    (buildCreateCredentials dC10).Password =
      some { Value := "", Hash := none,
             Hook := some { hookType := dC10.getStr "password_inline_hook" } } ∧
    (resourceUserCreate okClient dC10).1.take 1 =
      [Event.apiCreateUser (buildCreateUserRequest dC10) (createActivateParam dC10)] :=
  C10_hook_only_credentials okClient dC10 (by decide)

theorem countEv_zero_iff (p : Event → Bool) (tr : List Event) :
    countEv p tr = 0 ↔ ∀ e ∈ tr, p e = false := by
  simp [countEv, List.length_eq_zero, List.filter_eq_nil_iff]

theorem countEv_append (p : Event → Bool) (tr1 tr2 : List Event) :
    countEv p (tr1 ++ tr2) = countEv p tr1 + countEv p tr2 := by
  simp [countEv, List.filter_append]

theorem tbind_trace_mem {α β : Type} (x : List Event × Except String α)
    (f : α → List Event × Except String β) :
    ∀ e ∈ (tbind x f).1, e ∈ x.1 ∨ ∃ a, e ∈ (f a).1 := by
  intro e he
  cases hx : x.2 with
  | error msg =>
    simp only [tbind, hx] at he
    exact Or.inl he
  | ok a =>
    simp only [tbind, hx] at he
    rcases List.mem_append.mp he with h | h
    · exact Or.inl h
    · exact Or.inr ⟨a, h⟩

/-- The read path only issues read calls: every event of its trace is a
GetUser, a role-list read, or a group-list read. -/
theorem resourceUserRead_countEv_zero (client : Client) (d : ResourceData)
    (p : Event → Bool)
    (h1 : ∀ s, p (Event.apiGetUser s) = false)
    (h2 : ∀ s, p (Event.apiListRoles s) = false)
    (h3 : ∀ s, p (Event.apiListGroups s) = false) :
    countEv p (resourceUserRead client d).1 = 0 := by
  cases hg : client.getUser d.id with
  | failure e => simp [resourceUserRead, hg, countEv, h1]
  | notFound => simp [resourceUserRead, hg, countEv, h1]
  | found u =>
    by_cases hsk : d.getBool "skip_roles" = false
    · cases hlr : client.listRoles d.id with
      | error e =>
        simp [resourceUserRead, hg, tbind, hsk, hlr, countEv, h1, h2,
          ResourceData.setStr]
      | ok roles =>
        by_cases hgm : d.groupMemberships = []
        · simp [resourceUserRead, hg, tbind, hsk, hlr, hgm, countEv, h1, h2,
            ResourceData.setStr]
        · cases hlg : client.listGroups d.id <;>
            simp [resourceUserRead, hg, tbind, hsk, hlr, hgm, hlg, countEv,
              h1, h2, h3, ResourceData.setStr]
    · by_cases hgm : d.groupMemberships = []
      · simp [resourceUserRead, hg, tbind, hsk, hgm, countEv, h1,
          ResourceData.setStr]
      · cases hlg : client.listGroups d.id <;>
          simp [resourceUserRead, hg, tbind, hsk, hgm, hlg, countEv, h1, h3,
            ResourceData.setStr]

/-- C6: a create with desired status STAGED, no admin roles, no group
memberships and no expire flag issues exactly one create call, that call
carries activate=false, the assigned identifier is recorded immediately
after the create call (the first two trace entries), and no follow-up
role, group, status or expire call is issued. -/
theorem C6_create_staged (client : Client) (d : ResourceData) (u : RemoteUser)
    (hstatus : d.getStr "status" = userStatusStaged)
    (hroles : d.adminRoles = [])
    (hgroups : d.groupMemberships = [])
    (hexp : d.getBool "expire_password_on_create" = false)
    (hcreate : client.createUser (buildCreateUserRequest d)
        (createActivateParam d) = Except.ok u) :
    countEv isCreateEv (resourceUserCreate client d).1 = 1 ∧
    (resourceUserCreate client d).1.take 2 =
      [Event.apiCreateUser (buildCreateUserRequest d) (some false),
       Event.stateSetId u.uid] ∧
    countEv isFollowUpEv (resourceUserCreate client d).1 = 0 := by
  have hact : createActivateParam d = some false := by
    simp [createActivateParam, hstatus]
  have hcond : ¬(d.getStr "status" = userStatusSuspended ∨
      d.getStr "status" = userStatusDeprovisioned) := by
    simp [hstatus, userStatusStaged, userStatusSuspended,
      userStatusDeprovisioned]
  have hTr : (resourceUserCreate client d).1 =
      Event.apiCreateUser (buildCreateUserRequest d) (some false) ::
      Event.stateSetId u.uid :: (resourceUserRead client (d.withId u.uid)).1 := by
    rw [← hact]
    simp [resourceUserCreate, hcreate, tbind, ResourceData.withId, hroles,
      hgroups, hexp, hcond]
  refine ⟨?_, ?_, ?_⟩
  · have h0 := resourceUserRead_countEv_zero client (d.withId u.uid) isCreateEv
      (fun _ => rfl) (fun _ => rfl) (fun _ => rfl)
    rw [hTr]
    simp only [countEv, List.filter] at h0 ⊢
    simp [h0, isCreateEv]
  · rw [hTr]
    rfl
  · have h0 := resourceUserRead_countEv_zero client (d.withId u.uid) isFollowUpEv
      (fun _ => rfl) (fun _ => rfl) (fun _ => rfl)
    rw [hTr]
    simp only [countEv, List.filter] at h0 ⊢
    simp [h0, isFollowUpEv]

/-- Witness for C6 at a concrete STAGED configuration. -/
theorem C6_create_staged_witness :
    countEv isCreateEv (resourceUserCreate okClient dC6).1 = 1 ∧
    (resourceUserCreate okClient dC6).1.take 2 =
      [Event.apiCreateUser (buildCreateUserRequest dC6) (some false),
       Event.stateSetId "u1"] ∧
    countEv isFollowUpEv (resourceUserCreate okClient dC6).1 = 0 :=
  C6_create_staged okClient dC6 { uid := "u1", status := "STAGED" }
    (by decide) rfl rfl rfl rfl

/-- C1 (amended): when only the password field changed and an explicit
old_password is supplied, the reconciler issues exactly one
change-password call carrying the old and the new value; because password
is listed among the profile keys, it additionally issues exactly one
profile-overwrite (UpdateUser) call, carrying the rebuilt profile and no
credential payload. -/
theorem C1_amended_password_update (client : Client) (d : ResourceData)
    (u : RemoteUser)
    (hpw : d.hasChange "password" = true)
    (honly : ∀ k ∈ profileKeys, k ≠ "password" → d.hasChange k = false)
    (hst : d.hasChange "status" = false)
    (hrole : d.hasChange "admin_roles" = false)
    (hgrp : d.hasChange "group_memberships" = false)
    (hhash : d.hasChange "password_hash" = false)
    (hhook : d.hasChange "password_inline_hook" = false)
    (hdep : d.getStr "status" ≠ userStatusDeprovisioned)
    (hold : d.getStr "old_password" ≠ "")
    (hget : client.getUser d.id = GetUserRes.found u)
    (hprov : u.status ≠ "PROVISIONED")
    (hupd : ∀ b, client.updateUser d.id b = Except.ok ()) :
    countEv isChangePasswordEv (resourceUserUpdate client d).1 = 1 ∧
    Event.apiChangePassword d.id (d.getStr "old_password") (d.getStr "password")
      ∈ (resourceUserUpdate client d).1 ∧
    countEv isUpdateUserEv (resourceUserUpdate client d).1 = 1 ∧
    Event.apiUpdateUser d.id
        { Profile := some (populateUserProfile d), Credentials := none }
      ∈ (resourceUserUpdate client d).1 := by
  have hrq : d.hasChange "recovery_question" = false :=
    honly "recovery_question" (by decide) (by decide)
  have hra : d.hasChange "recovery_answer" = false :=
    honly "recovery_answer" (by decide) (by decide)
  have huc : hasProfileChange d = true := by
    have hm : "password" ∈ profileKeys := by decide
    simp only [hasProfileChange, List.any_eq_true]
    exact ⟨"password", hm, hpw⟩
  have s1 : updProvisionedCheck client d true =
      ([Event.apiGetUser d.id], Except.ok ()) := by
    simp [updProvisionedCheck, hget, hprov]
  have s4 : updProfileStep client d true false false =
      ([Event.apiUpdateUser d.id
          { Profile := some (populateUserProfile d), Credentials := none }],
       Except.ok ()) := by
    simp [updProfileStep, hupd]
  cases hcp : client.changePassword d.id (d.getStr "old_password")
      (d.getStr "password") with
  | ok v =>
    have s7 : updPasswordStep client d true =
        ([Event.apiChangePassword d.id (d.getStr "old_password")
            (d.getStr "password")], Except.ok ()) := by
      simp [updPasswordStep, ResourceData.getOkStr, hold, hcp]
    have hTr : (resourceUserUpdate client d).1 =
        [Event.apiGetUser d.id,
         Event.apiUpdateUser d.id
           { Profile := some (populateUserProfile d), Credentials := none },
         Event.apiChangePassword d.id (d.getStr "old_password")
           (d.getStr "password")]
        ++ (resourceUserRead client d).1 := by
      simp [resourceUserUpdate, hst, hpw, hrole, hgrp, hhash, hhook, hrq, hra,
        huc, s1, s4, s7, updStatusStep, updDeprovisionedCheck, hdep,
        updRolesStep, updGroupsStep, updRecoveryStep, tbind]
    have hcp0 := resourceUserRead_countEv_zero client d isChangePasswordEv
      (fun _ => rfl) (fun _ => rfl) (fun _ => rfl)
    have huu0 := resourceUserRead_countEv_zero client d isUpdateUserEv
      (fun _ => rfl) (fun _ => rfl) (fun _ => rfl)
    refine ⟨?_, ?_, ?_, ?_⟩
    · rw [hTr, countEv_append, hcp0]
      rfl
    · rw [hTr]
      simp
    · rw [hTr, countEv_append, huu0]
      rfl
    · rw [hTr]
      simp
  | error e =>
    have s7 : updPasswordStep client d true =
        ([Event.apiChangePassword d.id (d.getStr "old_password")
            (d.getStr "password")],
         Except.error ("failed to update users password: " ++ e)) := by
      simp [updPasswordStep, ResourceData.getOkStr, hold, hcp]
    have hTr : (resourceUserUpdate client d).1 =
        [Event.apiGetUser d.id,
         Event.apiUpdateUser d.id
           { Profile := some (populateUserProfile d), Credentials := none },
         Event.apiChangePassword d.id (d.getStr "old_password")
           (d.getStr "password")] := by
      simp [resourceUserUpdate, hst, hpw, hrole, hgrp, hhash, hhook, hrq, hra,
        huc, s1, s4, s7, updStatusStep, updDeprovisionedCheck, hdep,
        updRolesStep, updGroupsStep, updRecoveryStep, tbind]
    refine ⟨?_, ?_, ?_, ?_⟩ <;> rw [hTr]
    · rfl
    · simp
    · rfl
    · simp

/-- Witness for C1 (amended) at a concrete password-only update. -/
theorem C1_amended_password_update_witness :
    countEv isChangePasswordEv (resourceUserUpdate okClient dC1).1 = 1 ∧
    Event.apiChangePassword dC1.id (dC1.getStr "old_password")
        (dC1.getStr "password") ∈ (resourceUserUpdate okClient dC1).1 ∧
    countEv isUpdateUserEv (resourceUserUpdate okClient dC1).1 = 1 ∧
    Event.apiUpdateUser dC1.id
        { Profile := some (populateUserProfile dC1), Credentials := none }
      ∈ (resourceUserUpdate okClient dC1).1 :=
  C1_amended_password_update okClient dC1 { uid := "u1", status := "ACTIVE" }
    (by decide) (by decide) (by decide) (by decide) (by decide) (by decide)
    (by decide) (by decide) (by decide) rfl (by decide) (fun _ => rfl)

/-- C1 counterexample: at a concrete update in which only the password
changed and old_password is supplied, the reconciler issues a
profile-overwrite (UpdateUser) call — the claim states none occurs. -/
theorem C1_counterexample :
    dC1.hasChange "password" = true ∧
    dC1.getStr "old_password" = "oldpw" ∧
    countEv isChangePasswordEv (resourceUserUpdate okClient dC1).1 = 1 ∧
    countEv isUpdateUserEv (resourceUserUpdate okClient dC1).1 = 1 ∧
    Event.apiUpdateUser "u1"
        { Profile := some (populateUserProfile dC1), Credentials := none }
      ∈ (resourceUserUpdate okClient dC1).1 := by
  refine ⟨by decide, by decide, by decide, by decide, by decide⟩

theorem assignAdminRolesToUser_events (client : Client) (uid : String)
    (roles : List String) :
    ∀ e ∈ (assignAdminRolesToUser client uid roles).1,
      ∃ r, e = Event.apiAssignRole uid r := by
  induction roles with
  | nil => simp [assignAdminRolesToUser]
  | cons r rest ih =>
    intro e he
    cases h : client.assignRole uid r with
    | error msg =>
      simp only [assignAdminRolesToUser, h] at he
      simp at he
      exact ⟨r, he⟩
    | ok v =>
      simp only [assignAdminRolesToUser, h] at he
      rcases List.mem_cons.mp he with h1 | h1
      · exact ⟨r, h1⟩
      · exact ih e h1

theorem addUserToGroups_events (client : Client) (uid : String)
    (groups : List String) :
    ∀ e ∈ (addUserToGroups client uid groups).1,
      ∃ g, e = Event.apiAddToGroup uid g := by
  induction groups with
  | nil => simp [addUserToGroups]
  | cons g rest ih =>
    intro e he
    cases h : client.addToGroup uid g with
    | error msg =>
      simp only [addUserToGroups, h] at he
      simp at he
      exact ⟨g, he⟩
    | ok v =>
      simp only [addUserToGroups, h] at he
      rcases List.mem_cons.mp he with h1 | h1
      · exact ⟨g, h1⟩
      · exact ih e h1

theorem removeUserFromGroups_events (client : Client) (uid : String)
    (groups : List String) :
    ∀ e ∈ (removeUserFromGroups client uid groups).1,
      ∃ g, e = Event.apiRemoveFromGroup uid g := by
  induction groups with
  | nil => simp [removeUserFromGroups]
  | cons g rest ih =>
    intro e he
    cases h : client.removeFromGroup uid g with
    | error msg =>
      simp only [removeUserFromGroups, h] at he
      simp at he
      exact ⟨g, he⟩
    | ok v =>
      simp only [removeUserFromGroups, h] at he
      rcases List.mem_cons.mp he with h1 | h1
      · exact ⟨g, h1⟩
      · exact ih e h1

/-- Every event of the removal loop removes, against the fetched remote
list, a role whose type is in the removal delta. -/
theorem removeRolesLoop_events (client : Client) (uid : String)
    (toRem : List String) (roles : List ApiRole) :
    ∀ e ∈ (removeRolesLoop client uid toRem roles).1,
      ∃ r ∈ roles, e = Event.apiRemoveRole uid r.rid ∧
        toRem.contains r.rtype = true := by
  induction roles with
  | nil => simp [removeRolesLoop]
  | cons role rest ih =>
    intro e he
    cases hc : toRem.contains role.rtype with
    | false =>
      simp only [removeRolesLoop, hc] at he
      rcases ih e he with ⟨r, hr, hh⟩
      exact ⟨r, List.mem_cons_of_mem _ hr, hh⟩
    | true =>
      cases hs : suppressRemoveErrorOn404 (client.removeRole uid role.rid) with
      | error msg =>
        simp only [removeRolesLoop, hc, hs] at he
        simp at he
        exact ⟨role, List.mem_cons_self _ _, he, hc⟩
      | ok v =>
        simp only [removeRolesLoop, hc, hs] at he
        rcases List.mem_cons.mp he with h1 | h1
        · exact ⟨role, List.mem_cons_self _ _, h1, hc⟩
        · rcases ih e h1 with ⟨r, hr, hh⟩
          exact ⟨r, List.mem_cons_of_mem _ hr, hh⟩

/-- When no removal response is a genuine failure (success or 404 only),
the removal loop completes successfully. -/
theorem removeRolesLoop_ok (client : Client) (uid : String)
    (toRem : List String) (roles : List ApiRole)
    (hok : ∀ r ∈ roles, ∀ msg,
      client.removeRole uid r.rid ≠ RemoveRoleRes.failure msg) :
    (removeRolesLoop client uid toRem roles).2 = Except.ok () := by
  induction roles with
  | nil => rfl
  | cons role rest ih =>
    have hs : suppressRemoveErrorOn404 (client.removeRole uid role.rid) =
        Except.ok () := by
      cases hrr : client.removeRole uid role.rid with
      | failure msg => exact absurd hrr (hok role (List.mem_cons_self _ _) msg)
      | ok => rfl
      | notFound => rfl
    have ih2 := ih (fun r hr msg => hok r (List.mem_cons_of_mem _ hr) msg)
    by_cases hc : role.rtype ∈ toRem
    · simp [removeRolesLoop, hc, hs, ih2]
    · simp [removeRolesLoop, hc, ih2]

/-- When no removal response is a genuine failure, every role of the
fetched remote list whose type is in the removal delta gets its removal
call issued — a 404 answer on an earlier removal does not stop the
loop. -/
theorem removeRolesLoop_complete (client : Client) (uid : String)
    (toRem : List String) (roles : List ApiRole)
    (hok : ∀ r ∈ roles, ∀ msg,
      client.removeRole uid r.rid ≠ RemoveRoleRes.failure msg) :
    ∀ r ∈ roles, toRem.contains r.rtype = true →
      Event.apiRemoveRole uid r.rid ∈ (removeRolesLoop client uid toRem roles).1 := by
  induction roles with
  | nil => simp
  | cons role rest ih =>
    intro r hr hcont
    have hs : suppressRemoveErrorOn404 (client.removeRole uid role.rid) =
        Except.ok () := by
      cases hrr : client.removeRole uid role.rid with
      | failure msg => exact absurd hrr (hok role (List.mem_cons_self _ _) msg)
      | ok => rfl
      | notFound => rfl
    have ih2 := ih (fun r2 h2 msg => hok r2 (List.mem_cons_of_mem _ h2) msg)
    rcases List.mem_cons.mp hr with h1 | h1
    · subst h1
      simp only [removeRolesLoop, hcont, hs]
      simp
    · cases hc : toRem.contains role.rtype with
      | true =>
        simp only [removeRolesLoop, hc, hs]
        have := ih2 r h1 hcont
        simp [this]
      | false =>
        simp only [removeRolesLoop, hc]
        exact ih2 r h1 hcont

theorem resourceUserRead_no_role_events (client : Client) (d : ResourceData) :
    ∀ e ∈ (resourceUserRead client d).1,
      isAssignRoleEv e = false ∧ isRemoveRoleEv e = false := by
  intro e he
  have h1 := resourceUserRead_countEv_zero client d isAssignRoleEv
    (fun _ => rfl) (fun _ => rfl) (fun _ => rfl)
  have h2 := resourceUserRead_countEv_zero client d isRemoveRoleEv
    (fun _ => rfl) (fun _ => rfl) (fun _ => rfl)
  exact ⟨(countEv_zero_iff _ _).mp h1 e he, (countEv_zero_iff _ _).mp h2 e he⟩

theorem updGroupsStep_no_role_events (client : Client) (d : ResourceData)
    (gc : Bool) :
    ∀ e ∈ (updGroupsStep client d gc).1,
      isAssignRoleEv e = false ∧ isRemoveRoleEv e = false := by
  intro e he
  cases gc with
  | false => simp [updGroupsStep] at he
  | true =>
    simp only [updGroupsStep, if_pos] at he
    rcases tbind_trace_mem _ _ e he with h | ⟨a, h⟩
    · rcases addUserToGroups_events client d.id _ e h with ⟨g, rfl⟩
      exact ⟨rfl, rfl⟩
    · rcases removeUserFromGroups_events client d.id _ e h with ⟨g, rfl⟩
      exact ⟨rfl, rfl⟩

theorem updProvisionedCheck_no_role (client : Client) (d : ResourceData)
    (pc : Bool) :
    ∀ e ∈ (updProvisionedCheck client d pc).1,
      isAssignRoleEv e = false ∧ isRemoveRoleEv e = false := by
  intro e he
  cases pc with
  | false => simp [updProvisionedCheck] at he
  | true =>
    cases hg : client.getUser d.id <;> simp [updProvisionedCheck, hg] at he <;>
      subst he <;> exact ⟨rfl, rfl⟩

theorem updStatusStep_no_role (client : Client) (d : ResourceData)
    (st : String) (sc : Bool) :
    ∀ e ∈ (updStatusStep client d st sc).1,
      isAssignRoleEv e = false ∧ isRemoveRoleEv e = false := by
  intro e he
  cases sc with
  | false => simp [updStatusStep] at he
  | true =>
    cases hs : client.updateStatus d.id st <;> simp [updStatusStep, hs] at he <;>
      subst he <;> exact ⟨rfl, rfl⟩

theorem updDeprovisionedCheck_trace (st : String) (uc : Bool) :
    (updDeprovisionedCheck st uc).1 = [] := by
  unfold updDeprovisionedCheck
  split <;> rfl

theorem updProfileStep_no_role (client : Client) (d : ResourceData)
    (uc hc kc : Bool) :
    ∀ e ∈ (updProfileStep client d uc hc kc).1,
      isAssignRoleEv e = false ∧ isRemoveRoleEv e = false := by
  intro e he
  simp only [updProfileStep] at he
  repeat' split at he
  all_goals simp at he
  all_goals (subst he; exact ⟨rfl, rfl⟩)

theorem updPasswordStep_no_role (client : Client) (d : ResourceData)
    (pc : Bool) :
    ∀ e ∈ (updPasswordStep client d pc).1,
      isAssignRoleEv e = false ∧ isRemoveRoleEv e = false := by
  intro e he
  simp only [updPasswordStep] at he
  repeat' split at he
  all_goals simp at he
  all_goals (subst he; exact ⟨rfl, rfl⟩)

theorem updRecoveryStep_no_role (client : Client) (d : ResourceData)
    (qc ac : Bool) :
    ∀ e ∈ (updRecoveryStep client d qc ac).1,
      isAssignRoleEv e = false ∧ isRemoveRoleEv e = false := by
  intro e he
  simp only [updRecoveryStep] at he
  repeat' split at he
  all_goals simp at he
  all_goals (subst he; exact ⟨rfl, rfl⟩)

/-- The status step passes the resource data through unchanged except for
the status attribute: identifier and role sets are preserved. -/
theorem updStatusStep_ok_projections (client : Client) (d : ResourceData)
    (st : String) (sc : Bool) (d1 : ResourceData)
    (h : (updStatusStep client d st sc).2 = Except.ok d1) :
    d1.id = d.id ∧ d1.adminRoles = d.adminRoles ∧
    d1.adminRolesOld = d.adminRolesOld := by
  cases sc with
  | false =>
    simp [updStatusStep] at h
    subst h
    exact ⟨rfl, rfl, rfl⟩
  | true =>
    cases hs : client.updateStatus d.id st with
    | error e => simp [updStatusStep, hs] at h
    | ok v =>
      simp [updStatusStep, hs] at h
      subst h
      exact ⟨rfl, rfl, rfl⟩

theorem updTailAfterProfile_no_role (client : Client) (d1 : ResourceData)
    (gc pc qc ac : Bool) :
    ∀ e ∈ (updTailAfterProfile client d1 gc pc qc ac).1,
      isAssignRoleEv e = false ∧ isRemoveRoleEv e = false := by
  intro e he
  unfold updTailAfterProfile at he
  rcases tbind_trace_mem _ _ e he with h | ⟨a, h⟩
  · exact updGroupsStep_no_role_events client d1 gc e h
  · rcases tbind_trace_mem _ _ e h with h2 | ⟨b, h2⟩
    · exact updPasswordStep_no_role client d1 pc e h2
    · rcases tbind_trace_mem _ _ e h2 with h3 | ⟨c, h3⟩
      · exact updRecoveryStep_no_role client d1 qc ac e h3
      · exact resourceUserRead_no_role_events client d1 e h3

/-- Over the suffix of the update that starts at the role step, for every
remote behaviour: the trace splits into an addition-free part followed by
a removal-free part, and every removal call targets a role of the freshly
fetched remote role list whose type is in the removal delta. -/
theorem updRolesSuffix_split (client : Client) (d1 : ResourceData)
    (gc pc qc ac : Bool) :
    (∃ pre post, (updRolesSuffix client d1 true gc pc qc ac).1 = pre ++ post ∧
      (∀ e ∈ pre, isAssignRoleEv e = false) ∧
      (∀ e ∈ post, isRemoveRoleEv e = false)) ∧
    (∀ uid rid,
      Event.apiRemoveRole uid rid ∈ (updRolesSuffix client d1 true gc pc qc ac).1 →
      uid = d1.id ∧ ∃ roles, client.listRoles d1.id = Except.ok roles ∧
        ∃ r ∈ roles, r.rid = rid ∧
          (listDiff d1.adminRolesOld d1.adminRoles).contains r.rtype = true) := by
  have hTail := updTailAfterProfile_no_role client d1 gc pc qc ac
  cases hlr : client.listRoles d1.id with
  | error msg =>
    have hstep : updRolesStep client d1 true =
        ([Event.apiListRoles d1.id],
         Except.error ("failed to list users roles: " ++ msg)) := by
      simp [updRolesStep, hlr]
    have hTr : (updRolesSuffix client d1 true gc pc qc ac).1 =
        [Event.apiListRoles d1.id] := by
      simp [updRolesSuffix, hstep, tbind]
    constructor
    · refine ⟨[Event.apiListRoles d1.id], [], by simp [hTr], ?_, by simp⟩
      intro e he
      simp at he
      subst he
      rfl
    · intro uid rid hmem
      rw [hTr] at hmem
      simp at hmem
  | ok roles =>
    have hloopEv := removeRolesLoop_events client d1.id
      (listDiff d1.adminRolesOld d1.adminRoles) roles
    cases hlres : (removeRolesLoop client d1.id
        (listDiff d1.adminRolesOld d1.adminRoles) roles).2 with
    | error msg =>
      have hstep : updRolesStep client d1 true =
          (Event.apiListRoles d1.id ::
            (removeRolesLoop client d1.id
              (listDiff d1.adminRolesOld d1.adminRoles) roles).1,
           Except.error msg) := by
        simp [updRolesStep, hlr, tbind, hlres]
      have hTr : (updRolesSuffix client d1 true gc pc qc ac).1 =
          Event.apiListRoles d1.id ::
            (removeRolesLoop client d1.id
              (listDiff d1.adminRolesOld d1.adminRoles) roles).1 := by
        simp [updRolesSuffix, hstep, tbind]
      constructor
      · refine ⟨Event.apiListRoles d1.id ::
          (removeRolesLoop client d1.id
            (listDiff d1.adminRolesOld d1.adminRoles) roles).1, [],
          by simp [hTr], ?_, by simp⟩
        intro e he
        rcases List.mem_cons.mp he with h | h
        · subst h; rfl
        · rcases hloopEv e h with ⟨r, _, rfl, _⟩
          rfl
      · intro uid rid hmem
        rw [hTr] at hmem
        rcases List.mem_cons.mp hmem with h | h
        · exact absurd h (by simp)
        · rcases hloopEv _ h with ⟨r, hrmem, heq, hcont⟩
          injection heq with h1 h2
          exact ⟨h1, roles, rfl, r, hrmem, h2.symm, hcont⟩
    | ok v =>
      have hstep : updRolesStep client d1 true =
          (Event.apiListRoles d1.id ::
            ((removeRolesLoop client d1.id
                (listDiff d1.adminRolesOld d1.adminRoles) roles).1 ++
             (assignAdminRolesToUser client d1.id
                (listDiff d1.adminRoles d1.adminRolesOld)).1),
           (assignAdminRolesToUser client d1.id
              (listDiff d1.adminRoles d1.adminRolesOld)).2) := by
        simp [updRolesStep, hlr, tbind, hlres]
      have hassignTr := assignAdminRolesToUser_events client d1.id
        (listDiff d1.adminRoles d1.adminRolesOld)
      cases hass : (assignAdminRolesToUser client d1.id
          (listDiff d1.adminRoles d1.adminRolesOld)).2 with
      | error msg2 =>
        have hTr : (updRolesSuffix client d1 true gc pc qc ac).1 =
            Event.apiListRoles d1.id ::
              ((removeRolesLoop client d1.id
                  (listDiff d1.adminRolesOld d1.adminRoles) roles).1 ++
               (assignAdminRolesToUser client d1.id
                  (listDiff d1.adminRoles d1.adminRolesOld)).1) := by
          simp [updRolesSuffix, hstep, tbind, hass]
        constructor
        · refine ⟨Event.apiListRoles d1.id ::
            (removeRolesLoop client d1.id
              (listDiff d1.adminRolesOld d1.adminRoles) roles).1,
            (assignAdminRolesToUser client d1.id
              (listDiff d1.adminRoles d1.adminRolesOld)).1,
            by simp [hTr], ?_, ?_⟩
          · intro e he
            rcases List.mem_cons.mp he with h | h
            · subst h; rfl
            · rcases hloopEv e h with ⟨r, _, rfl, _⟩
              rfl
          · intro e he
            rcases hassignTr e he with ⟨r, rfl⟩
            rfl
        · intro uid rid hmem
          rw [hTr] at hmem
          rcases List.mem_cons.mp hmem with h | h
          · exact absurd h (by simp)
          · rcases List.mem_append.mp h with h2 | h2
            · rcases hloopEv _ h2 with ⟨r, hrmem, heq, hcont⟩
              injection heq with h1 h2b
              exact ⟨h1, roles, rfl, r, hrmem, h2b.symm, hcont⟩
            · rcases hassignTr _ h2 with ⟨r, heq⟩
              exact absurd heq (by simp)
      | ok v2 =>
        have hTr : (updRolesSuffix client d1 true gc pc qc ac).1 =
            Event.apiListRoles d1.id ::
              ((removeRolesLoop client d1.id
                  (listDiff d1.adminRolesOld d1.adminRoles) roles).1 ++
               ((assignAdminRolesToUser client d1.id
                  (listDiff d1.adminRoles d1.adminRolesOld)).1 ++
                (updTailAfterProfile client d1 gc pc qc ac).1)) := by
          simp [updRolesSuffix, hstep, tbind, hass]
        constructor
        · refine ⟨Event.apiListRoles d1.id ::
            (removeRolesLoop client d1.id
              (listDiff d1.adminRolesOld d1.adminRoles) roles).1,
            (assignAdminRolesToUser client d1.id
              (listDiff d1.adminRoles d1.adminRolesOld)).1 ++
            (updTailAfterProfile client d1 gc pc qc ac).1,
            by simp [hTr], ?_, ?_⟩
          · intro e he
            rcases List.mem_cons.mp he with h | h
            · subst h; rfl
            · rcases hloopEv e h with ⟨r, _, rfl, _⟩
              rfl
          · intro e he
            rcases List.mem_append.mp he with h | h
            · rcases hassignTr e h with ⟨r, rfl⟩
              rfl
            · exact (hTail e h).2
        · intro uid rid hmem
          rw [hTr] at hmem
          rcases List.mem_cons.mp hmem with h | h
          · exact absurd h (by simp)
          · rcases List.mem_append.mp h with h2 | h2
            · rcases hloopEv _ h2 with ⟨r, hrmem, heq, hcont⟩
              injection heq with h1 h2b
              exact ⟨h1, roles, rfl, r, hrmem, h2b.symm, hcont⟩
            · rcases List.mem_append.mp h2 with h3 | h3
              · rcases hassignTr _ h3 with ⟨r, heq⟩
                exact absurd heq (by simp)
              · have := (hTail _ h3).2
                simp [isRemoveRoleEv] at this

/-- C9: in every update in which role membership changed, every role
removal call precedes every role addition call in the issued trace; a role
removal call is issued only for the managed user and only for a role
present in the freshly fetched remote role list whose type is in the
removal delta (prior minus desired); and a 404 response on a removal call
is absorbed as success: the removal pass of the update succeeds and issues
every matching removal whenever its responses are only success or 404. -/
theorem C9_roles_update (client : Client) (d : ResourceData)
    (hrc : d.hasChange "admin_roles" = true) :
    (∃ pre post, (resourceUserUpdate client d).1 = pre ++ post ∧
      (∀ e ∈ pre, isAssignRoleEv e = false) ∧
      (∀ e ∈ post, isRemoveRoleEv e = false)) ∧
    (∀ uid rid,
      Event.apiRemoveRole uid rid ∈ (resourceUserUpdate client d).1 →
      uid = d.id ∧ ∃ roles, client.listRoles d.id = Except.ok roles ∧
        ∃ r ∈ roles, r.rid = rid ∧
          (listDiff d.adminRolesOld d.adminRoles).contains r.rtype = true) ∧
    (suppressRemoveErrorOn404 RemoveRoleRes.notFound = Except.ok () ∧
     ∀ uid toRem roles,
      (∀ r ∈ roles, client.removeRole uid r.rid = RemoveRoleRes.ok ∨
        client.removeRole uid r.rid = RemoveRoleRes.notFound) →
      (removeRolesLoop client uid toRem roles).2 = Except.ok () ∧
      ∀ r ∈ roles, toRem.contains r.rtype = true →
        Event.apiRemoveRole uid r.rid ∈
          (removeRolesLoop client uid toRem roles).1) := by
  have hC : suppressRemoveErrorOn404 RemoveRoleRes.notFound = Except.ok () ∧
      ∀ uid toRem roles,
        (∀ r ∈ roles, client.removeRole uid r.rid = RemoveRoleRes.ok ∨
          client.removeRole uid r.rid = RemoveRoleRes.notFound) →
        (removeRolesLoop client uid toRem roles).2 = Except.ok () ∧
        ∀ r ∈ roles, toRem.contains r.rtype = true →
          Event.apiRemoveRole uid r.rid ∈
            (removeRolesLoop client uid toRem roles).1 := by
    refine ⟨rfl, ?_⟩
    intro uid toRem roles h
    have h2 : ∀ r ∈ roles, ∀ msg,
        client.removeRole uid r.rid ≠ RemoveRoleRes.failure msg := by
      intro r hr msg hcontra
      rcases h r hr with h3 | h3 <;> rw [hcontra] at h3 <;>
        exact absurd h3 (by simp)
    exact ⟨removeRolesLoop_ok client uid toRem roles h2,
           removeRolesLoop_complete client uid toRem roles h2⟩
  by_cases hguard : d.getStr "status" = userStatusStaged ∧
      d.hasChange "status" = true
  · have hTr : (resourceUserUpdate client d).1 = [] := by
      simp [resourceUserUpdate, hguard]
    refine ⟨⟨[], [], by simp [hTr], by simp, by simp⟩, ?_, hC⟩
    intro uid rid hmem
    rw [hTr] at hmem
    simp at hmem
  · have hEq : resourceUserUpdate client d =
        tbind (updProvisionedCheck client d (d.hasChange "password")) (fun _ =>
        tbind (updStatusStep client d (d.getStr "status")
          (d.hasChange "status")) (fun d1 =>
        tbind (updDeprovisionedCheck (d.getStr "status")
          (hasProfileChange d)) (fun _ =>
        tbind (updProfileStep client d1 (hasProfileChange d)
          (d.hasChange "password_hash")
          (d.hasChange "password_inline_hook")) (fun _ =>
        updRolesSuffix client d1 (d.hasChange "admin_roles")
          (d.hasChange "group_memberships") (d.hasChange "password")
          (d.hasChange "recovery_question")
          (d.hasChange "recovery_answer"))))) := by
      simp only [resourceUserUpdate, updRolesSuffix, updTailAfterProfile]
      rw [if_neg hguard]
    rw [hrc] at hEq
    have hfree1 := updProvisionedCheck_no_role client d (d.hasChange "password")
    cases hr1 : (updProvisionedCheck client d (d.hasChange "password")).2 with
    | error e1 =>
      have hTr : (resourceUserUpdate client d).1 =
          (updProvisionedCheck client d (d.hasChange "password")).1 := by
        rw [hEq]
        simp [tbind, hr1]
      refine ⟨⟨(updProvisionedCheck client d (d.hasChange "password")).1, [],
        by simp [hTr], fun e he => (hfree1 e he).1, by simp⟩, ?_, hC⟩
      intro uid rid hmem
      rw [hTr] at hmem
      have := (hfree1 _ hmem).2
      simp [isRemoveRoleEv] at this
    | ok u1 =>
      have hfree2 := updStatusStep_no_role client d (d.getStr "status")
        (d.hasChange "status")
      cases hr2 : (updStatusStep client d (d.getStr "status")
          (d.hasChange "status")).2 with
      | error e2 =>
        have hTr : (resourceUserUpdate client d).1 =
            (updProvisionedCheck client d (d.hasChange "password")).1 ++
            (updStatusStep client d (d.getStr "status")
              (d.hasChange "status")).1 := by
          rw [hEq]
          simp [tbind, hr1, hr2]
        refine ⟨⟨(updProvisionedCheck client d (d.hasChange "password")).1 ++
          (updStatusStep client d (d.getStr "status")
            (d.hasChange "status")).1, [],
          by simp [hTr], ?_, by simp⟩, ?_, hC⟩
        · intro e he
          rcases List.mem_append.mp he with h | h
          · exact (hfree1 e h).1
          · exact (hfree2 e h).1
        · intro uid rid hmem
          rw [hTr] at hmem
          rcases List.mem_append.mp hmem with h | h
          · have := (hfree1 _ h).2
            simp [isRemoveRoleEv] at this
          · have := (hfree2 _ h).2
            simp [isRemoveRoleEv] at this
      | ok d1 =>
        obtain ⟨hid, hAR, hARO⟩ := updStatusStep_ok_projections client d
          (d.getStr "status") (d.hasChange "status") d1 hr2
        cases hr3 : (updDeprovisionedCheck (d.getStr "status")
            (hasProfileChange d)).2 with
        | error e3 =>
          have hTr : (resourceUserUpdate client d).1 =
              (updProvisionedCheck client d (d.hasChange "password")).1 ++
              (updStatusStep client d (d.getStr "status")
                (d.hasChange "status")).1 := by
            rw [hEq]
            simp [tbind, hr1, hr2, hr3, updDeprovisionedCheck_trace]
          refine ⟨⟨(updProvisionedCheck client d (d.hasChange "password")).1 ++
            (updStatusStep client d (d.getStr "status")
              (d.hasChange "status")).1, [],
            by simp [hTr], ?_, by simp⟩, ?_, hC⟩
          · intro e he
            rcases List.mem_append.mp he with h | h
            · exact (hfree1 e h).1
            · exact (hfree2 e h).1
          · intro uid rid hmem
            rw [hTr] at hmem
            rcases List.mem_append.mp hmem with h | h
            · have := (hfree1 _ h).2
              simp [isRemoveRoleEv] at this
            · have := (hfree2 _ h).2
              simp [isRemoveRoleEv] at this
        | ok u3 =>
          have hfree4 := updProfileStep_no_role client d1 (hasProfileChange d)
            (d.hasChange "password_hash") (d.hasChange "password_inline_hook")
          cases hr4 : (updProfileStep client d1 (hasProfileChange d)
              (d.hasChange "password_hash")
              (d.hasChange "password_inline_hook")).2 with
          | error e4 =>
            have hTr : (resourceUserUpdate client d).1 =
                (updProvisionedCheck client d (d.hasChange "password")).1 ++
                ((updStatusStep client d (d.getStr "status")
                  (d.hasChange "status")).1 ++
                 (updProfileStep client d1 (hasProfileChange d)
                   (d.hasChange "password_hash")
                   (d.hasChange "password_inline_hook")).1) := by
              rw [hEq]
              simp [tbind, hr1, hr2, hr3, hr4, updDeprovisionedCheck_trace]
            refine ⟨⟨(updProvisionedCheck client d (d.hasChange "password")).1 ++
              ((updStatusStep client d (d.getStr "status")
                (d.hasChange "status")).1 ++
               (updProfileStep client d1 (hasProfileChange d)
                 (d.hasChange "password_hash")
                 (d.hasChange "password_inline_hook")).1), [],
              by simp [hTr], ?_, by simp⟩, ?_, hC⟩
            · intro e he
              rcases List.mem_append.mp he with h | h
              · exact (hfree1 e h).1
              · rcases List.mem_append.mp h with h2 | h2
                · exact (hfree2 e h2).1
                · exact (hfree4 e h2).1
            · intro uid rid hmem
              rw [hTr] at hmem
              rcases List.mem_append.mp hmem with h | h
              · have := (hfree1 _ h).2
                simp [isRemoveRoleEv] at this
              · rcases List.mem_append.mp h with h2 | h2
                · have := (hfree2 _ h2).2
                  simp [isRemoveRoleEv] at this
                · have := (hfree4 _ h2).2
                  simp [isRemoveRoleEv] at this
          | ok u4 =>
            obtain ⟨⟨pre, post, hsplit, hpre, hpost⟩, honly⟩ :=
              updRolesSuffix_split client d1 (d.hasChange "group_memberships")
                (d.hasChange "password") (d.hasChange "recovery_question")
                (d.hasChange "recovery_answer")
            have hTr : (resourceUserUpdate client d).1 =
                (updProvisionedCheck client d (d.hasChange "password")).1 ++
                ((updStatusStep client d (d.getStr "status")
                  (d.hasChange "status")).1 ++
                 ((updProfileStep client d1 (hasProfileChange d)
                   (d.hasChange "password_hash")
                   (d.hasChange "password_inline_hook")).1 ++
                  (updRolesSuffix client d1 true
                    (d.hasChange "group_memberships") (d.hasChange "password")
                    (d.hasChange "recovery_question")
                    (d.hasChange "recovery_answer")).1)) := by
              rw [hEq]
              simp [tbind, hr1, hr2, hr3, hr4, updDeprovisionedCheck_trace]
            refine ⟨⟨(updProvisionedCheck client d (d.hasChange "password")).1 ++
              ((updStatusStep client d (d.getStr "status")
                (d.hasChange "status")).1 ++
               ((updProfileStep client d1 (hasProfileChange d)
                 (d.hasChange "password_hash")
                 (d.hasChange "password_inline_hook")).1 ++ pre)),
              post, ?_, ?_, hpost⟩, ?_, hC⟩
            · rw [hTr, hsplit]
              simp
            · intro e he
              rcases List.mem_append.mp he with h | h
              · exact (hfree1 e h).1
              · rcases List.mem_append.mp h with h2 | h2
                · exact (hfree2 e h2).1
                · rcases List.mem_append.mp h2 with h3 | h3
                  · exact (hfree4 e h3).1
                  · exact hpre e h3
            · intro uid rid hmem
              rw [hTr] at hmem
              rcases List.mem_append.mp hmem with h | h
              · have := (hfree1 _ h).2
                simp [isRemoveRoleEv] at this
              · rcases List.mem_append.mp h with h2 | h2
                · have := (hfree2 _ h2).2
                  simp [isRemoveRoleEv] at this
                · rcases List.mem_append.mp h2 with h3 | h3
                  · have := (hfree4 _ h3).2
                    simp [isRemoveRoleEv] at this
                  · obtain ⟨huid, roles, hlr1, r, hrmem, hrid, hcont⟩ :=
                      honly uid rid h3
                    rw [hid] at huid hlr1
                    rw [hARO, hAR] at hcont
                    exact ⟨huid, roles, hlr1, r, hrmem, hrid, hcont⟩

/-- Witness for C9: a removal pass whose responses are all 404 still
succeeds and issues the matching removal call. -/
theorem C9_roles_update_witness :
    Event.apiRemoveRole "u1" "rid1" ∈
      (removeRolesLoop clientC9 "u1" ["SUPER_ADMIN"]
        [{ rid := "rid1", rtype := "SUPER_ADMIN" }]).1 :=
  ((C9_roles_update clientC9 dC9 (by decide)).2.2.2 "u1" ["SUPER_ADMIN"]
      [{ rid := "rid1", rtype := "SUPER_ADMIN" }]
      (fun r hr => Or.inr rfl)).2
    { rid := "rid1", rtype := "SUPER_ADMIN" } (by simp) (by decide)

/-- C8: the filter builder fails exactly when id, label and label_prefix
are all empty; otherwise the query term is the label when non-empty and
the label prefix otherwise, and the status clause is the status-equality
expression exactly when active_only is set. -/
theorem C8_filter_builder (d : ResourceData) :
    ((∃ e, getAppFilters d = Except.error e) ↔
      (d.getStr "id" = "" ∧ d.getStr "label" = "" ∧
       d.getStr "label_prefix" = "")) ∧
    ∀ f, getAppFilters d = Except.ok f →
      AppFilters.getQ f =
        (if d.getStr "label" ≠ "" then d.getStr "label"
         else d.getStr "label_prefix") ∧
      (f.Status = activeStatusClause ↔ d.getBool "active_only" = true) := by
  constructor
  · by_cases h : d.getStr "id" = "" ∧ d.getStr "label" = "" ∧
        d.getStr "label_prefix" = "" <;>
      simp [getAppFilters, h]
  · intro f hf
    by_cases h : d.getStr "id" = "" ∧ d.getStr "label" = "" ∧
        d.getStr "label_prefix" = ""
    · simp [getAppFilters, h] at hf
    · simp [getAppFilters, h] at hf
      constructor
      · rw [← hf]
        simp [AppFilters.getQ]
      · rw [← hf]
        by_cases hb : d.getBool "active_only" = true <;>
          simp [hb, activeStatusClause, statusActive]

/-- Witness for C8 at a configuration with label, label prefix and
active_only all set. -/
theorem C8_filter_builder_witness :
    AppFilters.getQ fC8 =
      (if dC8.getStr "label" ≠ "" then dC8.getStr "label"
       else dC8.getStr "label_prefix") ∧
    (fC8.Status = activeStatusClause ↔ dC8.getBool "active_only" = true) :=
  (C8_filter_builder dC8).2 fC8 rfl

end Okta
